import Mathlib

/-!
Verification of the session store and role-gated view selector of the
hotel-sites dashboard front-end.

The embedded code is `src/contexts/AuthContext.tsx` (login, logout, the
startup restore effect, the `useAuth` hook) and `src/pages/Dashboard.tsx`
(role-gated layout selection and KPI slot binding).

Modelling conventions:
* JavaScript strings are modelled as Lean `String` (sequences of Unicode
  scalar values); `password.length` is modelled by `String.length`.
* JavaScript runtime values flowing through `JSON.parse` are modelled by a
  `Json` inductive (numbers as `Int`, which covers every value the claims
  touch).  The current user held in React state is a `Json` value, with
  `Json.null` standing for the JavaScript `null` of `useState<User | null>(null)`:
  after `setUser(JSON.parse(savedUser))` the in-memory value is whatever
  JSON was stored, entirely unchecked, so typing it as a `User` record
  would be unfaithful to the source.
* The browser builtins `JSON.stringify` / `JSON.parse` are external to the
  repository; the `localStorage` slot under the key `'user'` is therefore
  modelled up to parsing: a stored string is either `wellFormed j` (a
  string on which `JSON.parse` succeeds with structure `j`; in particular
  `JSON.stringify v` is such a string with `j` the structure of `v`, and
  any such string is non-empty hence truthy) or `illFormed raw` (a string
  on which `JSON.parse` throws).
* `Math.random().toString(36).substr(2, 9)` is nondeterministic; the fresh
  id is an explicit parameter of `login`.
-/

/-- The two roles of `User.role` in `AuthContext.tsx`:
`'investor' | 'admin'`. -/
inductive Role where
  | investor
  | admin
deriving DecidableEq, Repr

/-- The string each `Role` is written as in the source. -/
def Role.toStr : Role → String
  | .investor => "investor"
  | .admin => "admin"

/-- The `User` interface of `AuthContext.tsx`:
`{ id: string; email: string; name: string; role: 'investor' | 'admin' }`. -/
structure User where
  id : String
  email : String
  name : String
  role : Role
deriving DecidableEq, Repr

/-- JavaScript/JSON runtime values (numbers restricted to `Int`, which is
enough for everything the claims mention).  Object field lists come from
`JSON.parse`, whose result has distinct keys, so `List.lookup` is field
access. -/
inductive Json where
  | null
  | bool (b : Bool)
  | num (n : Int)
  | str (s : String)
  | arr (elems : List Json)
  | obj (fields : List (String × Json))

/-- JavaScript truthiness (`!!v`), as used by `isAuthenticated: !!user`. -/
def Json.truthy : Json → Bool
  | .null => false
  | .bool b => b
  | .num n => n != 0
  | .str s => s != ""
  | .arr _ => true
  | .obj _ => true

/-- Optional chaining field access `v?.k`: a field lookup on objects,
`undefined` (here `none`) on everything else. -/
def Json.optField : Json → String → Option Json
  | .obj fields, k => fields.lookup k
  | _, _ => none

/-- The structure `JSON.stringify` gives to a `User` object (and equally the
in-memory object literal built by `login`). -/
def userToJson (u : User) : Json :=
  Json.obj [("id", .str u.id), ("email", .str u.email),
            ("name", .str u.name), ("role", .str u.role.toStr)]

/-- A string sitting in the `localStorage` slot, modelled up to
`JSON.parse`: `wellFormed j` is a (necessarily non-empty) string that
parses to structure `j`; `illFormed raw` is a string on which `JSON.parse`
throws. -/
inductive StoredString where
  | wellFormed (j : Json)
  | illFormed (raw : String)

/-- The session store's state: the React state `user` (a `Json`, with
`Json.null` for no user) and the `localStorage` entry under the key
`'user'` (`none` when absent). -/
structure SessionState where
  user : Json
  storage : Option StoredString

/-- Fresh browser session: `useState<User | null>(null)` and an empty
storage slot. -/
def initialState : SessionState :=
  { user := Json.null, storage := none }

/-- `isAuthenticated: !!user` from the context value in `AuthContext.tsx`. -/
def isAuthenticated (s : SessionState) : Bool :=
  s.user.truthy

/-- JavaScript `String.prototype.split` with a one-character separator, on
the character list of the string: splits at every occurrence of the
separator, keeping empty pieces, and always returns at least one piece. -/
def splitChars (sep : Char) : List Char → List (List Char)
  | [] => [[]]
  | c :: cs =>
      match splitChars sep cs with
      | [] => [[]]
      | t :: ts => if c = sep then [] :: t :: ts else (c :: t) :: ts

/-- `email.split('@')[0]` from `login` in `AuthContext.tsx`. -/
def jsSplitHead (sep : Char) (s : String) : String :=
  ((splitChars sep s.data).headD []).asString

/-- The `name` the spec describes: the part of the email before the first
`'@'` (the whole email when there is no `'@'`). -/
def specNameBeforeAt (email : String) : String :=
  (email.data.takeWhile (fun c => c != '@')).asString

/-- The Identity the spec describes for a successful `login`: the supplied
email and role, and the name equal to the part of the email before the
first `'@'`. -/
def specLoginUser (uid email : String) (role : Role) : User :=
  { id := uid, email := email, name := specNameBeforeAt email, role := role }

/-- The `setTimeout` delay of the simulated API call in `login`. -/
def loginDelayMs : Nat := 500

/-- The `User` object `login` constructs on success:
`{ id: <random id>, email, name: email.split('@')[0], role }`. -/
def mkLoginUser (uid email : String) (role : Role) : User :=
  { id := uid, email := email, name := jsSplitHead '@' email, role := role }

/-- `login(email, password, role)` from `AuthContext.tsx`, with the random
id passed explicitly.  Returns the resolved boolean and the state after the
timeout callback ran: on `password.length >= 4` it builds the user object,
`setUser`s it and persists `JSON.stringify(newUser)` under `'user'`,
resolving `true`; otherwise it resolves `false` and touches nothing. -/
def login (uid email password : String) (role : Role) (s : SessionState) :
    Bool × SessionState :=
  if 4 ≤ password.length then
    let u := mkLoginUser uid email role
    (true, { user := userToJson u, storage := some (.wellFormed (userToJson u)) })
  else
    (false, s)

/-- `logout()` from `AuthContext.tsx`: `setUser(null)` and
`localStorage.removeItem('user')`. -/
def logout (_s : SessionState) : SessionState :=
  { user := Json.null, storage := none }

/-- The startup `useEffect` of `AuthProvider`: read `'user'`; if the string
is truthy (non-empty), `setUser(JSON.parse(savedUser))`, and on a parse
exception remove the entry.  An ill-formed empty string is falsy, so the
block is skipped and the entry left in place. -/
def restore (s : SessionState) : SessionState :=
  match s.storage with
  | none => s
  | some (.wellFormed j) => { s with user := j }
  | some (.illFormed raw) =>
      if raw = "" then s
      else { s with storage := none }

theorem splitChars_ne_nil (sep : Char) (l : List Char) :
    splitChars sep l ≠ [] := by
  cases l with
  | nil => simp [splitChars]
  | cons c cs =>
      simp only [splitChars]
      cases hr : splitChars sep cs with
      | nil => simp
      | cons t ts => by_cases h : c = sep <;> simp [h]

theorem splitChars_head (sep : Char) (l : List Char) :
    (splitChars sep l).headD [] = l.takeWhile (fun c => c != sep) := by
  induction l with
  | nil => rfl
  | cons c cs ih =>
      cases hr : splitChars sep cs with
      | nil => exact absurd hr (splitChars_ne_nil sep cs)
      | cons t ts =>
          rw [hr] at ih
          by_cases h : c = sep
          · simp [splitChars, hr, h, List.takeWhile, ← ih]
          · have hb : (c != sep) = true := by simp [bne_iff_ne, h]
            simp [splitChars, hr, h, List.takeWhile, ← ih, hb]

theorem jsSplitHead_eq_specName (email : String) :
    jsSplitHead '@' email = specNameBeforeAt email := by
  unfold jsSplitHead specNameBeforeAt
  rw [splitChars_head]

/-- Claim C1: for every email, role, and password of length at least 4,
`login` resolves `true` and installs an Identity whose email is the
supplied email, whose role is the requested role and whose name is the part
of the email before the first `'@'`; the Identity is both set as the
current user and persisted to storage. -/
theorem login_success_installs_identity (uid email password : String)
    (role : Role) (s : SessionState) (hp : 4 ≤ password.length) :
    (login uid email password role s).1 = true ∧
    (login uid email password role s).2.user =
      userToJson (specLoginUser uid email role) ∧
    (login uid email password role s).2.storage =
      some (.wellFormed (userToJson (specLoginUser uid email role))) := by
  simp [login, hp, mkLoginUser, specLoginUser, jsSplitHead_eq_specName]

/-- Concrete instance of C1: `login("a@b.com", "1234", "admin")` succeeds
and yields name `"a"` and role `admin`, installed and persisted. -/
theorem login_success_installs_identity_witness :
    4 ≤ ("1234" : String).length ∧
    (specLoginUser "id0" "a@b.com" Role.admin).name = "a" ∧
    (specLoginUser "id0" "a@b.com" Role.admin).role = Role.admin ∧
    ((login "id0" "a@b.com" "1234" Role.admin initialState).1 = true ∧
     (login "id0" "a@b.com" "1234" Role.admin initialState).2.user =
       userToJson (specLoginUser "id0" "a@b.com" Role.admin) ∧
     (login "id0" "a@b.com" "1234" Role.admin initialState).2.storage =
       some (.wellFormed (userToJson (specLoginUser "id0" "a@b.com" Role.admin)))) :=
  ⟨by decide, by decide, by decide,
   login_success_installs_identity "id0" "a@b.com" "1234" Role.admin
     initialState (by decide)⟩

/-- Claim C2: for every email, role, and password of length strictly less
than 4, `login` resolves `false` and returns the session state exactly as
it was. -/
theorem login_failure_preserves_state (uid email password : String)
    (role : Role) (s : SessionState) (hp : password.length < 4) :
    login uid email password role s = (false, s) := by
  simp [login, Nat.not_le.mpr hp]

/-- Concrete instance of C2: `login("x@y.com", "abc", "investor")` fails
and leaves the state untouched. -/
theorem login_failure_preserves_state_witness :
    ("abc" : String).length < 4 ∧
    login "id0" "x@y.com" "abc" Role.investor initialState =
      (false, initialState) :=
  ⟨by decide,
   login_failure_preserves_state "id0" "x@y.com" "abc" Role.investor
     initialState (by decide)⟩

/-- The spec invariant's field conditions on a current-user value: a
non-empty string `email` field and a `role` field equal to `'investor'` or
`'admin'`. -/
def identityFieldsOk (j : Json) : Bool :=
  (match j.optField "email" with
   | some (Json.str e) => e != ""
   | _ => false) &&
  (match j.optField "role" with
   | some (Json.str r) => r == "investor" || r == "admin"
   | _ => false)

/-- A current-user value is acceptable when it is `null` (no Identity
present) or satisfies the field conditions. -/
def jsonUserOk : Json → Bool
  | Json.null => true
  | j => identityFieldsOk j

/-- The spec invariant on a session state: the current user, if non-null,
has a non-empty email and a role in the two-value enum. -/
def identityInvariant (s : SessionState) : Bool :=
  jsonUserOk s.user

/-- Precondition under which `restore` preserves the invariant: the stored
value, when well-formed JSON, is itself an acceptable user value. -/
def storedOk (s : SessionState) : Bool :=
  match s.storage with
  | some (.wellFormed j) => jsonUserOk j
  | _ => true

/-- Claim C3 counterexample: the invariant holds in the initial state, yet
`login` with an empty email (and any 4-character password) installs an
Identity whose email is empty, and `restore` on a well-formed JSON entry
that is not a valid Identity (empty email, role outside the enum) installs
it unchecked; both resulting states violate the invariant. -/
theorem session_invariant_violations :
    identityInvariant initialState = true ∧
    identityInvariant (login "id0" "" "1234" Role.admin initialState).2 = false ∧
    identityInvariant (restore ⟨Json.null,
      some (.wellFormed (Json.obj
        [("email", Json.str ""), ("role", Json.str "hacker")]))⟩) = false :=
  ⟨rfl, rfl, rfl⟩

/-- Claim C3 (amended): the invariant is preserved by `login` whenever the
supplied email is non-empty, by `logout` unconditionally, and by `restore`
whenever the persisted entry, if well-formed JSON, itself satisfies the
invariant's field conditions (as every entry persisted by such a `login`
does); a `login` with empty email, or a `restore` of well-formed JSON that
is not a valid Identity, can violate it. -/
theorem session_invariant_preserved (uid email password : String)
    (role : Role) (s : SessionState) (hinv : identityInvariant s = true)
    (hemail : email ≠ "") :
    identityInvariant (login uid email password role s).2 = true ∧
    identityInvariant (logout s) = true ∧
    (storedOk s = true → identityInvariant (restore s) = true) := by
  refine ⟨?_, rfl, ?_⟩
  · by_cases hp : 4 ≤ password.length
    · have he : (email != "") = true := by simpa [bne_iff_ne] using hemail
      unfold identityInvariant login
      rw [if_pos hp]
      show ((email != "") &&
        (role.toStr == "investor" || role.toStr == "admin")) = true
      rw [he]
      cases role <;> rfl
    · simpa [login, hp] using hinv
  · intro hst
    obtain ⟨u, st⟩ := s
    match hs : st with
    | none => simpa [restore] using hinv
    | some (.wellFormed j) =>
        have hj : jsonUserOk j = true := by simpa [storedOk] using hst
        simpa [restore, identityInvariant] using hj
    | some (.illFormed raw) =>
        by_cases hr : raw = "" <;>
          simpa [restore, hr, identityInvariant] using hinv

/-- Concrete instance of the amended C3: starting from the initial state,
a login with non-empty email, a logout, and a restore all keep the
invariant. -/
theorem session_invariant_preserved_witness :
    identityInvariant (login "id0" "a@b.com" "1234" Role.investor
      initialState).2 = true ∧
    identityInvariant (logout initialState) = true ∧
    identityInvariant (restore initialState) = true := by
  have h := session_invariant_preserved "id0" "a@b.com" "1234" Role.investor
    initialState (by decide) (by decide)
  exact ⟨h.1, h.2.1, h.2.2 (by decide)⟩

/-- The two layouts `Dashboard.tsx` can return: the investor summary view
and the administrator detailed view. -/
inductive Layout where
  | investorSummary
  | adminDetailed
deriving DecidableEq, Repr

/-- The KPI record shape consumed by `Dashboard.tsx` (the fields of the
`getKPIData` result that the page binds into cards; metric values as
integers). -/
structure KPIData where
  revPAR : Int
  profitMargin : Int
  profitPercentage : Int
  avgOccupancyRate : Int
  budgetOccupancyRate : Int
  totalRevenue : Int
  revenueAchievement : Int
  occupancyRate : Int
  adr : Int
  budgetADR : Int
  adrGrowth : Int
  forecastRevPAR : Int
  budgetRevenue : Int
  forecastRevenue : Int
  avgRatePerPerson : Int
  costs : Int
  fara : Int
  faraPercentage : Int
deriving DecidableEq, Repr

/-- One KPI card: the title slot and the metric bound into the value slot
(string formatting by the external helpers is outside the embedded
core). -/
structure KpiSlot where
  title : String
  value : Int
deriving DecidableEq, Repr

/-- The branch condition of `Dashboard.tsx`: `user?.role === 'investor'`. -/
def roleIsInvestor (user : Json) : Bool :=
  match user.optField "role" with
  | some (Json.str r) => r == "investor"
  | _ => false

/-- The four `KPICard`s of the investor view, in page order, each bound to
its `kpiData` field. -/
def investorKpiCards (k : KPIData) : List KpiSlot :=
  [⟨"RevPAR", k.revPAR⟩, ⟨"Ganancia Neta", k.profitMargin⟩,
   ⟨"Ocupación Promedio", k.avgOccupancyRate⟩,
   ⟨"Ventas Totales", k.totalRevenue⟩]

/-- The ten `KPICard`s of the administrator view, in page order, each bound
to its `kpiData` field. -/
def adminKpiCards (k : KPIData) : List KpiSlot :=
  [⟨"% Ocupación", k.occupancyRate⟩, ⟨"Ventas", k.totalRevenue⟩,
   ⟨"ADR", k.adr⟩, ⟨"RevPAR", k.revPAR⟩,
   ⟨"Presupuesto a hoy", k.budgetRevenue⟩,
   ⟨"Forecast de ventas", k.forecastRevenue⟩,
   ⟨"Tarifa promedio (Per)", k.avgRatePerPerson⟩,
   ⟨"Gastos y costos", k.costs⟩, ⟨"Utilidad/Perdida", k.profitMargin⟩,
   ⟨"FARA", k.fara⟩]

/-- The `Dashboard` component of `Dashboard.tsx`: if
`user?.role === 'investor'` it returns the investor summary, otherwise it
falls through to the administrator view; either way it binds the KPI
record into that layout's card slots. -/
def dashboard (user : Json) (k : KPIData) : Layout × List KpiSlot :=
  if roleIsInvestor user then (.investorSummary, investorKpiCards k)
  else (.adminDetailed, adminKpiCards k)

/-- A sample KPI record used to instantiate universally quantified
statements. -/
def sampleKpi : KPIData :=
  ⟨1, 2, 3, 4, 5, 6, 7, 8, 9, 10, 11, 12, 13, 14, 15, 16, 17, 18⟩

/-- Claim C4: for every Identity and KPI dataset, the Dashboard renders the
four-KPI investor summary when the role is `investor` and the extended
admin view when the role is `admin`; the `Layout` type has exactly these
two values and every input is mapped to one of them. -/
theorem role_selects_layout (u : User) (k : KPIData) :
    (u.role = Role.investor →
      dashboard (userToJson u) k = (Layout.investorSummary, investorKpiCards k) ∧
      (investorKpiCards k).length = 4) ∧
    (u.role = Role.admin →
      dashboard (userToJson u) k = (Layout.adminDetailed, adminKpiCards k)) ∧
    (∀ j : Json, ∀ k2 : KPIData,
      (dashboard j k2).1 = Layout.investorSummary ∨
      (dashboard j k2).1 = Layout.adminDetailed) := by
  refine ⟨?_, ?_, ?_⟩
  · intro hr
    refine ⟨?_, rfl⟩
    obtain ⟨i, e, n, r⟩ := u
    cases hr
    rfl
  · intro hr
    obtain ⟨i, e, n, r⟩ := u
    cases hr
    rfl
  · intro j k2
    unfold dashboard
    by_cases h : roleIsInvestor j <;> simp [h]

/-- Concrete instance of C4: an investor Identity gets the four-card
summary and an admin Identity gets the detailed view. -/
theorem role_selects_layout_witness :
    (dashboard (userToJson (specLoginUser "i" "a@b.com" Role.investor))
        sampleKpi
      = (Layout.investorSummary, investorKpiCards sampleKpi) ∧
     (investorKpiCards sampleKpi).length = 4) ∧
    dashboard (userToJson (specLoginUser "i" "a@b.com" Role.admin)) sampleKpi
      = (Layout.adminDetailed, adminKpiCards sampleKpi) := by
  have h1 := role_selects_layout (specLoginUser "i" "a@b.com" Role.investor)
    sampleKpi
  have h2 := role_selects_layout (specLoginUser "i" "a@b.com" Role.admin)
    sampleKpi
  exact ⟨h1.1 rfl, h2.2.1 rfl⟩

/-- Claim C5: from every prior state, `logout` yields the unauthenticated
state — no current Identity and no persisted entry — and is a total
operation with no error path. -/
theorem logout_clears_session (s : SessionState) :
    logout s = initialState ∧
    (logout s).user = Json.null ∧
    (logout s).storage = none ∧
    isAuthenticated (logout s) = false :=
  ⟨rfl, rfl, rfl, rfl⟩

/-- Claim C6: persisting an Identity via a successful `login` and then
running the startup restore on the persisted entry (in-memory user reset
to `null`, as at process start) reinstates exactly the user `login` had
installed, and the resulting state is authenticated. -/
theorem persist_restore_roundtrip (uid email password : String)
    (role : Role) (s0 : SessionState) (hp : 4 ≤ password.length) :
    (restore ⟨Json.null, (login uid email password role s0).2.storage⟩).user
      = (login uid email password role s0).2.user ∧
    isAuthenticated
      (restore ⟨Json.null, (login uid email password role s0).2.storage⟩)
      = true := by
  unfold login
  rw [if_pos hp]
  exact ⟨rfl, rfl⟩

/-- Concrete instance of C6: the Identity persisted by
`login("a@b.com", "1234", "investor")` is restored identically at the next
start, and the state is authenticated. -/
theorem persist_restore_roundtrip_witness :
    (restore ⟨Json.null,
        (login "id0" "a@b.com" "1234" Role.investor initialState).2.storage⟩).user
      = (login "id0" "a@b.com" "1234" Role.investor initialState).2.user ∧
    isAuthenticated (restore ⟨Json.null,
        (login "id0" "a@b.com" "1234" Role.investor initialState).2.storage⟩)
      = true :=
  persist_restore_roundtrip "id0" "a@b.com" "1234" Role.investor initialState
    (by decide)

/-- Whether a JSON structure is the serialization shape `JSON.stringify`
gives a `User`: exactly the four string fields in declaration order, with
a role drawn from the two-value enum. -/
def isSerializedUser : Json → Bool
  | Json.obj [("id", Json.str _), ("email", Json.str _),
              ("name", Json.str _), ("role", Json.str r)] =>
      r == "investor" || r == "admin"
  | _ => false

theorem isSerializedUser_userToJson (u : User) :
    isSerializedUser (userToJson u) = true := by
  obtain ⟨i, e, n, r⟩ := u
  cases r <;> rfl

/-- Claim C7 counterexample: the stored JSON object with a single field
`foo` is well-formed JSON but not the serialization of any Identity, yet
the startup restore installs it unchanged as the current user and the
session becomes authenticated instead of staying unauthenticated; only
`JSON.parse` failures are discarded. -/
theorem wellformed_junk_installed :
    isSerializedUser (Json.obj [("foo", Json.str "bar")]) = false ∧
    restore ⟨Json.null,
        some (.wellFormed (Json.obj [("foo", Json.str "bar")]))⟩
      = ⟨Json.obj [("foo", Json.str "bar")],
         some (.wellFormed (Json.obj [("foo", Json.str "bar")]))⟩ ∧
    isAuthenticated (restore ⟨Json.null,
        some (.wellFormed (Json.obj [("foo", Json.str "bar")]))⟩) = true :=
  ⟨rfl, rfl, rfl⟩

/-- Claim C7 (amended): for every persisted string on which `JSON.parse`
throws, the startup restore never installs it — starting with no current
user, the session stays unauthenticated, and the entry is either removed
or (when the stored string is empty, hence falsy at the `getItem` check)
left in place unused; a stored string that parses as JSON is installed
unchecked even when it is not a serialized Identity. -/
theorem illformed_storage_discarded (raw : String) (s : SessionState)
    (hst : s.storage = some (.illFormed raw)) (hu : s.user = Json.null) :
    (restore s).user = Json.null ∧
    isAuthenticated (restore s) = false ∧
    ((restore s).storage = none ∨ (restore s).storage = s.storage) := by
  obtain ⟨u, st⟩ := s
  obtain rfl : st = some (.illFormed raw) := hst
  obtain rfl : u = Json.null := hu
  by_cases hr : raw = "" <;>
    simp [restore, hr, isAuthenticated, Json.truthy]

/-- Concrete instance of the amended C7: the unparseable stored string
`"\x7b"` is discarded at startup and the session stays unauthenticated. -/
theorem illformed_storage_discarded_witness :
    (restore ⟨Json.null, some (.illFormed "\x7b")⟩).user = Json.null ∧
    isAuthenticated (restore ⟨Json.null, some (.illFormed "\x7b")⟩) = false ∧
    ((restore ⟨Json.null, some (.illFormed "\x7b")⟩).storage = none ∨
     (restore ⟨Json.null, some (.illFormed "\x7b")⟩).storage =
       (⟨Json.null, some (.illFormed "\x7b")⟩ : SessionState).storage) :=
  illformed_storage_discarded "\x7b" ⟨Json.null, some (.illFormed "\x7b")⟩
    rfl rfl

/-- The data part of the context value `AuthProvider` supplies: the current
user and the derived `isAuthenticated` flag. -/
structure AuthContextValue where
  user : Json
  isAuthenticated : Bool

/-- The context value `AuthProvider` builds from its state:
`{ user, isAuthenticated: !!user, ... }`. -/
def mkContextValue (s : SessionState) : AuthContextValue :=
  { user := s.user, isAuthenticated := s.user.truthy }

/-- `useAuth` from `AuthContext.tsx`: `useContext(AuthContext)` yields the
enclosing provider's value, or `undefined` (`none`) outside any provider;
`undefined` is surfaced as a thrown `Error`. -/
def useAuth (ctx : Option AuthContextValue) : Except String AuthContextValue :=
  match ctx with
  | none => .error "useAuth debe ser usado dentro de un AuthProvider"
  | some c => .ok c

/-- Claim C8: outside a provider scope (`useContext` returns `undefined`)
`useAuth` always throws, immediately and at every call site; inside a
provider scope (whatever value the provider supplies) it returns the value
and never throws. -/
theorem useAuth_outside_provider_throws (v : AuthContextValue) :
    useAuth none = .error "useAuth debe ser usado dentro de un AuthProvider" ∧
    useAuth (some v) = .ok v :=
  ⟨rfl, rfl⟩

/-- Claim C9: for every input and prior state, `login` completes with a
definite boolean — `true` exactly on passwords of length at least 4 and
`false` exactly on shorter ones, so no input hangs or rejects — after the
fixed 500 ms simulated-latency delay (the only timing in its body, with no
cancellation path; the model is the state after that timer fires). -/
theorem login_always_resolves (uid email password : String) (role : Role)
    (s : SessionState) :
    ((login uid email password role s).1 = true ↔ 4 ≤ password.length) ∧
    ((login uid email password role s).1 = false ↔ password.length < 4) ∧
    loginDelayMs = 500 := by
  refine ⟨?_, ?_, rfl⟩ <;>
    by_cases hp : 4 ≤ password.length <;>
      simp [login, hp, lt_iff_not_le]

/-- Concrete instance of C9 at a 4-character password. -/
theorem login_always_resolves_witness :
    ((login "id0" "a@b.com" "1234" Role.admin initialState).1 = true ↔
      4 ≤ ("1234" : String).length) ∧
    ((login "id0" "a@b.com" "1234" Role.admin initialState).1 = false ↔
      ("1234" : String).length < 4) ∧
    loginDelayMs = 500 :=
  login_always_resolves "id0" "a@b.com" "1234" Role.admin initialState

/-- Claim C10: with no Identity present (current user `null`),
`user?.role === 'investor'` is false, so the Dashboard falls through to
the extended administrator view for every KPI dataset. -/
theorem null_user_gets_admin_layout (k : KPIData) :
    roleIsInvestor Json.null = false ∧
    dashboard Json.null k = (Layout.adminDetailed, adminKpiCards k) :=
  ⟨rfl, rfl⟩
